import Mathlib

/-!
Verification development for the casgate authentication core.
The definitions below are a shallow embedding of the two source files
(the LDAP directory synchronizer in src/unnamed/part_000 and the login
controller in src/controllers/auth.go). External collaborators (the
persistence engine, identity providers, the LDAP wire protocol) are
modelled as explicit environments; every call into them is recorded in
an effect trace so that frame properties can be stated.
-/

namespace Casgate

/-- Directory record (struct LdapUser, src/unnamed/part_000 lines 40-63),
restricted to the fields the reconciliation code reads. -/
structure LdapUser where
  uidNumber : String
  uid : String
  cn : String
  uuid : String
  displayName : String
  email : String
  mobile : String
  address : String
  deriving Repr, DecidableEq, Inhabited

/-- Principal (object.User), restricted to the fields this core reads or
writes. Default values mirror the Go zero value of the struct. -/
structure User where
  owner : String
  name : String
  displayName : String
  tag : String
  typ : String
  id : String
  ldap : String
  email : String
  phone : String
  avatar : String
  affiliation : String
  signupApplication : String
  score : Int
  isAdmin : Bool
  isGlobalAdmin : Bool
  isDeleted : Bool
  isForbidden : Bool
  mfaEnabled : Bool
  passwordChangeRequired : Bool
  signinWrongTimes : Nat
  deriving Repr, DecidableEq, Inhabited

/-- Directory configuration (object.Ldap), the fields SyncLdapUsers reads. -/
structure Ldap where
  id : String
  baseDn : String
  username : String
  enableRoleMapping : Bool
  deriving Repr, DecidableEq, Inhabited

/-- Organization record, the fields the sync and signup paths read. -/
structure Organization where
  name : String
  defaultApplication : String
  defaultAvatar : String
  deriving Repr, DecidableEq, Inhabited

/-- Substring test, as strings.Contains in Go: the pattern occurs in s
exactly when splitting on it yields at least two pieces. -/
def goContains (s pat : String) : Bool :=
  decide (2 ≤ (s.splitOn pat).length)

/-- Affiliation derivation (SyncLdapUsers, part_000 lines 369-375): the
base-DN components containing dc= are stripped of their first three
characters and joined with dots. -/
def deriveAffiliation (baseDn : String) : String :=
  String.intercalate "." (((baseDn.splitOn ",").filter
    (fun b => goContains b "dc=")).map (fun b => b.drop 3))

/-- Tag derivation (SyncLdapUsers, part_000 lines 377-383): the bind-DN
components containing ou= are stripped of their first three characters
and joined with dots. -/
def deriveTag (username : String) : String :=
  String.intercalate "." (((username.splitOn ",").filter
    (fun b => goContains b "ou=")).map (fun b => b.drop 3))

/-- GetExistUuids (part_000 lines 474-484): the distinct ldap column
values among the users of the owner whose ldap value is in uuids. -/
def GetExistUuids (owner : String) (uuids : List String) (db : List User) : List String :=
  ((db.filter (fun u => u.owner == owner && uuids.contains u.ldap)).map
    (fun u => u.ldap)).dedup

/-- buildLdapDisplayName (part_000 lines 511-517). -/
def buildLdapDisplayName (ldapUser : LdapUser) : String :=
  if ldapUser.displayName != "" then ldapUser.displayName else ldapUser.cn

/-- buildLdapUserName (part_000 lines 486-509). The single database
lookup (a user whose name equals the raw uid or the uid_uidNumber
composite) is passed in as queryResult, and the random 6-hex suffix
produced by randstr.Hex is passed in as rand. -/
def buildLdapUserName (ldapUser : LdapUser)
    (queryResult : Except Unit (Option User)) (rand : String) : Except Unit String :=
  let uidWithNumber := ldapUser.uid ++ "_" ++ ldapUser.uidNumber
  match queryResult with
  | Except.error e => Except.error e
  | Except.ok (some user) =>
      if user.ldap == ldapUser.uuid then Except.ok user.name
      else if user.name == ldapUser.uid then Except.ok uidWithNumber
      else Except.ok (uidWithNumber ++ "_" ++ rand)
  | Except.ok none =>
      if ldapUser.uid != "" then Except.ok ldapUser.uid
      else Except.ok ldapUser.cn

/-- Calls SyncLdapUsers issues against storage and external helpers. -/
inductive Effect where
  | getExistUuids (owner : String) (uuids : List String)
  | addUser (owner name uuid : String)
  | addUserIdProvider (owner ldapId uuid : String)
  | syncRoles (uuid name owner : String)
  deriving Repr, DecidableEq

/-- Modelled from the spec: AddUser creates a Principal, AddUserIdProvider
inserts an Identity Link, and SyncRoles (whose body is not under src/)
synchronizes stored role assignments for the record, so all three touch
stored state; GetExistUuids is a read-only distinct lookup. -/
def Effect.isWrite : Effect → Bool
  | Effect.getExistUuids _ _ => false
  | _ => true

def Effect.isQuery : Effect → Bool
  | Effect.getExistUuids _ _ => true
  | _ => false

def countQueries (tr : List Effect) : Nat :=
  (tr.filter Effect.isQuery).length

/-- Outcome of a single AddUser call: inserted, reported not affected
without an error, or an error. -/
inductive AddResult where
  | ok
  | notAffected
  | err
  deriving Repr, DecidableEq

/-- Environment of SyncLdapUsers: the directory configuration, the
organization, and the outcome of every external call at each loop
index. -/
structure SyncEnv where
  ldap : Ldap
  org : Organization
  initScore : Except Unit Int
  getExistOk : Nat → Bool
  buildName : Nat → Except Unit String
  addUser : Nat → AddResult
  addIdp : Nat → Bool
  getLdap2 : Nat → Bool
  syncRolesOk : Nat → Bool

/-- State threaded through the SyncLdapUsers loop: stored users, the two
result lists and the trace of issued calls. -/
structure LoopSt where
  db : List User
  exist : List LdapUser
  failed : List LdapUser
  trace : List Effect
  deriving Repr, DecidableEq

/-- One loop iteration either proceeds, aborts returning nil result
lists, or aborts returning the partial result lists (the two abort
shapes of the Go code). -/
inductive StepOut where
  | next (st : LoopSt)
  | abortNil (st : LoopSt)
  | abortPartial (st : LoopSt)
  deriving Repr, DecidableEq

/-- Overall result of SyncLdapUsers: both lists with no error, nil lists
with an error, or the partial lists with an error. -/
inductive SyncResult where
  | ok (exist failed : List LdapUser)
  | errNil
  | errPartial (exist failed : List LdapUser)
  deriving Repr, DecidableEq

/-- The user record SyncLdapUsers creates for an unmatched directory
record (part_000 lines 412-432). -/
def mkLdapNewUser (owner name : String) (syncUser : LdapUser) (org : Organization)
    (affiliation tag : String) (score : Int) : User :=
  { (default : User) with
    owner := owner
    name := name
    displayName := buildLdapDisplayName syncUser
    signupApplication := org.defaultApplication
    typ := "normal-user"
    avatar := org.defaultAvatar
    email := syncUser.email
    phone := syncUser.mobile
    affiliation := affiliation
    tag := tag
    score := score
    ldap := syncUser.uuid }

/-- One iteration of the SyncLdapUsers loop (part_000 lines 385-469):
per-record exist-uuid lookup, classification, account creation with
identity link for unmatched records, and the role-mapping block. -/
def syncStep (env : SyncEnv) (owner ldapId affiliation tag : String)
    (uuids : List String) (i : Nat) (syncUser : LdapUser) (st : LoopSt) : StepOut :=
  let st1 : LoopSt := { st with trace := st.trace ++ [Effect.getExistUuids owner uuids] }
  if env.getExistOk i then
    let existUuids := GetExistUuids owner uuids st1.db
    let matched := existUuids.filter (fun x => x == syncUser.uuid)
    let found := !matched.isEmpty
    let st2 : LoopSt := { st1 with exist := st1.exist ++ matched.map (fun _ => syncUser) }
    match env.buildName i with
    | Except.error _ => StepOut.abortNil st2
    | Except.ok name =>
      let roleBlock : LoopSt → StepOut := fun st =>
        if env.getLdap2 i then
          if env.ldap.enableRoleMapping then
            let st3 : LoopSt :=
              { st with trace := st.trace ++ [Effect.syncRoles syncUser.uuid name owner] }
            if env.syncRolesOk i then StepOut.next st3 else StepOut.abortPartial st3
          else StepOut.next st
        else StepOut.abortPartial st
      if found then roleBlock st2
      else
        match env.initScore with
        | Except.error _ => StepOut.abortNil st2
        | Except.ok score =>
          let newUser := mkLdapNewUser owner name syncUser env.org affiliation tag score
          let st3 : LoopSt :=
            { st2 with trace := st2.trace ++ [Effect.addUser owner name syncUser.uuid] }
          match env.addUser i with
          | AddResult.err => StepOut.abortNil st3
          | AddResult.notAffected => StepOut.next { st3 with failed := st3.failed ++ [syncUser] }
          | AddResult.ok =>
            let st4 : LoopSt :=
              { st3 with
                db := st3.db ++ [newUser]
                trace := st3.trace ++ [Effect.addUserIdProvider env.org.name ldapId syncUser.uuid] }
            if env.addIdp i then roleBlock st4 else StepOut.abortNil st4
  else StepOut.abortNil st1

/-- The SyncLdapUsers loop over the remaining batch. -/
def syncLoop (env : SyncEnv) (owner ldapId affiliation tag : String)
    (uuids : List String) : List LdapUser → Nat → LoopSt → SyncResult × LoopSt
  | [], _, st => (SyncResult.ok st.exist st.failed, st)
  | syncUser :: rest, i, st =>
    match syncStep env owner ldapId affiliation tag uuids i syncUser st with
    | StepOut.next st2 => syncLoop env owner ldapId affiliation tag uuids rest (i + 1) st2
    | StepOut.abortNil st2 => (SyncResult.errNil, st2)
    | StepOut.abortPartial st2 => (SyncResult.errPartial st2.exist st2.failed, st2)

/-- SyncLdapUsers (part_000 lines 356-472): collects the uuid set of the
whole batch once, derives affiliation and tag from the directory
configuration, and runs the per-record loop against the stored users
db. -/
def SyncLdapUsers (env : SyncEnv) (owner : String) (syncUsers : List LdapUser)
    (ldapId : String) (db : List User) : SyncResult × LoopSt :=
  let uuids := syncUsers.map (fun u => u.uuid)
  let affiliation := deriveAffiliation env.ldap.baseDn
  let tag := deriveTag env.ldap.username
  syncLoop env owner ldapId affiliation tag uuids syncUsers 0
    { db := db, exist := [], failed := [], trace := [] }

/-- Behavior of one configured directory server as SyncUserFromLdap sees
it: the connection attempt fails, or it yields the entries of the
filtered search (the search error itself is discarded by the caller). -/
inductive LdapServerOutcome where
  | connFail
  | entries (res : List LdapUser)
  deriving Repr, DecidableEq

structure LdapServerSim where
  id : String
  outcome : LdapServerOutcome
  deriving Repr, DecidableEq

/-- Externals of SyncUserFromLdap once a server produced entries:
password check against the directory and the batch sync outcome. -/
structure SyncFromEnv where
  checkPasswordOk : Bool
  syncErr : Bool
  deriving Repr, DecidableEq

/-- The server loop of SyncUserFromLdap (part_000 lines 571-595): skip
servers with a non-matching id, skip failed connections and empty
search results, and on the first server with entries check the password
and run the batch sync, returning the first entry together with the
sync error. -/
def syncFromLoop (ldapId : String) (env : SyncFromEnv) :
    List LdapServerSim → Option LdapUser × Bool
  | [] => (none, false)
  | s :: rest =>
    if 0 < ldapId.length && s.id != ldapId then syncFromLoop ldapId env rest
    else
      match s.outcome with
      | LdapServerOutcome.connFail => syncFromLoop ldapId env rest
      | LdapServerOutcome.entries res =>
        if res.isEmpty then syncFromLoop ldapId env rest
        else if env.checkPasswordOk then (res.head?, env.syncErr)
        else (none, true)

/-- SyncUserFromLdap (part_000 lines 561-598). The pair returned models
the Go pair of a possibly-nil user and a possibly-nil error (true means
a non-nil error). -/
def SyncUserFromLdap (getLdaps : Except Unit (List LdapServerSim)) (ldapId : String)
    (env : SyncFromEnv) : Option LdapUser × Bool :=
  match getLdaps with
  | Except.error _ => (none, true)
  | Except.ok ldaps => syncFromLoop ldapId env ldaps

/-- Wire response envelope of the controller. -/
structure Resp where
  status : String
  msg : String
  data : String
  data2 : String
  deriving Repr, DecidableEq

def errResp (msg : String) : Resp :=
  { status := "error", msg := msg, data := "", data2 := "" }

def okResp (data : String) : Resp :=
  { status := "ok", msg := "", data := data, data2 := "" }

/-- Modelled from the spec: wrapErrorResponse is controller plumbing that
is not under src/; an absent error wraps into an ok envelope and a
present error into an error envelope carrying its message. -/
def wrapErrorResponse : Option String → Resp
  | none => { status := "ok", msg := "", data := "", data2 := "" }
  | some m => { status := "error", msg := m, data := "", data2 := "" }

/-- Authorization code as returned by GetOAuthCode. -/
structure OCode where
  code : String
  message : String
  deriving Repr, DecidableEq

/-- codeToResponse (auth.go lines 48-54). -/
def codeToResponse (code : OCode) : Resp :=
  if code.code == "" then { status := "error", msg := code.message, data := code.code, data2 := "" }
  else { status := "ok", msg := "", data := code.code, data2 := "" }

/-- Provider token as the login flow sees it. -/
structure OToken where
  accessToken : String
  refreshToken : String
  valid : Bool
  deriving Repr, DecidableEq

/-- tokenToResponse (auth.go lines 56-61). -/
def tokenToResponse (t : OToken) : Resp :=
  if t.accessToken == "" then
    { status := "error", msg := "fail to get accessToken", data := t.accessToken, data2 := "" }
  else { status := "ok", msg := "", data := t.accessToken, data2 := t.refreshToken }

/-- Application record, the fields the login flow reads. -/
structure Application where
  name : String
  organization : String
  tags : List String
  grantTypes : List String
  enableSigninSession : Bool
  hasPromptPage : Bool
  enableLinkWithEmail : Bool
  enableInternalSignUp : Bool
  enableIdpSignUp : Bool
  deriving Repr, DecidableEq, Inhabited

/-- Normalized external identity (idp.UserInfo). -/
structure UserInfo where
  id : String
  username : String
  displayName : String
  email : String
  phone : String
  countryCode : String
  avatarUrl : String
  deriving Repr, DecidableEq, Inhabited

/-- Identity-source provider record, the fields the login flow reads. -/
structure Provider where
  name : String
  typ : String
  category : String
  enableRoleMapping : Bool
  deriving Repr, DecidableEq, Inhabited

/-- Login form (form.AuthForm), the fields this core reads. -/
structure AuthForm where
  typ : String
  autoSignin : Bool
  username : String
  password : String
  code : String
  provider : String
  method : String
  state : String
  clientId : String
  passcode : String
  recoveryCode : String
  mfaType : String
  application : String
  organization : String
  deriving Repr, DecidableEq, Inhabited

/-- Query-string parameters HandleLoggedIn reads beside the form. -/
structure ReqParams where
  challengeMethod : String
  service : String
  deriving Repr, DecidableEq, Inhabited

/-- Calls HandleLoggedIn issues against external collaborators. -/
inductive HEffect where
  | getOAuthCode
  | getTokenByUser
  | getSamlResponse
  | generateCasToken
  | setSessionUsername (id : String)
  | setExpire
  | addSession (owner name app : String)
  deriving Repr, DecidableEq

/-- Environment of HandleLoggedIn: outcomes of its external calls. -/
structure HEnv where
  checkLoginPermission : Except Unit Bool
  subscriptions : Except Unit (List String)
  pricing : Except Unit (Option Unit)
  getOAuthCode : Except Unit OCode
  grantTypeValid : Bool
  tokenByUser : OToken
  samlResponse : Except Unit Unit
  casToken : Except Unit String
  addSessionOk : Bool

/-- user.GetId(): owner slash name. -/
def userGetId (u : User) : String := u.owner ++ "/" ++ u.name

/-- HandleLoggedIn (auth.go lines 64-222): user gates (invited kind,
login permission, application tags, paid-user subscription), then the
per-response-type completion, then the session bookkeeping tail. -/
def HandleLoggedIn (env : HEnv) (app : Application) (user : User) (form : AuthForm)
    (req : ReqParams) : Resp × List HEffect :=
  let userId := userGetId user
  if user.typ == "invited-user" then (errResp "Unauthorized operation", []) else
  match env.checkLoginPermission with
  | Except.error _ => (errResp "CheckLoginPermission error", [])
  | Except.ok allowed =>
  if !allowed then (errResp "Unauthorized operation", []) else
  if !user.isGlobalAdmin && !user.isAdmin && !app.tags.isEmpty && !app.tags.contains user.tag then
    (errResp ("User tag is not listed in the application tags: " ++ user.tag), [])
  else
  let paidGate : Option Resp :=
    if user.typ == "paid-user" then
      match env.subscriptions with
      | Except.error _ => some (errResp "internal server error")
      | Except.ok subs =>
        if subs.contains "Active" then none
        else if subs.contains "Pending" then some (okResp "BuyPlanResult")
        else
          match env.pricing with
          | Except.error _ => some (errResp "internal server error")
          | Except.ok none => some (errResp "paid-user has no subscription and no default pricing")
          | Except.ok (some _) => some (okResp "SelectPlan")
    else none
  match paidGate with
  | some r => (r, [])
  | none =>
    let out : Resp × List HEffect :=
      if form.typ == "login" then
        (okResp userId, [HEffect.setSessionUsername userId])
      else if form.typ == "code" then
        if req.challengeMethod != "S256" && req.challengeMethod != "null"
            && req.challengeMethod != "" then
          (errResp "Challenge method should be S256", [])
        else
          match env.getOAuthCode with
          | Except.error _ => (errResp "GetOAuthCode error", [HEffect.getOAuthCode])
          | Except.ok code =>
            if app.enableSigninSession || app.hasPromptPage then
              (codeToResponse code, [HEffect.getOAuthCode, HEffect.setSessionUsername userId])
            else (codeToResponse code, [HEffect.getOAuthCode])
      else if form.typ == "token" || form.typ == "id_token" then
        if !env.grantTypeValid then
          (errResp ("grant_type is not supported in this application: " ++ form.typ), [])
        else (tokenToResponse env.tokenByUser, [HEffect.getTokenByUser])
      else if form.typ == "saml" then
        match env.samlResponse with
        | Except.error _ => (errResp "GetSamlResponse error", [HEffect.getSamlResponse])
        | Except.ok _ =>
          if app.enableSigninSession || app.hasPromptPage then
            (okResp "saml", [HEffect.getSamlResponse, HEffect.setSessionUsername userId])
          else (okResp "saml", [HEffect.getSamlResponse])
      else if form.typ == "cas" then
        let inner : Resp × List HEffect :=
          if req.service != "" then
            match env.casToken with
            | Except.error _ => (wrapErrorResponse (some "GenerateCasToken error"),
                [HEffect.generateCasToken])
            | Except.ok st => ({ wrapErrorResponse none with data := st },
                [HEffect.generateCasToken])
          else (wrapErrorResponse none, [])
        if app.enableSigninSession || app.hasPromptPage then
          (inner.1, inner.2 ++ [HEffect.setSessionUsername userId])
        else inner
      else (wrapErrorResponse (some ("unknown response type: " ++ form.typ)), [])
    let effs := if out.1.status == "ok" && !form.autoSignin
      then out.2 ++ [HEffect.setExpire] else out.2
    if out.1.status == "ok" then
      if env.addSessionOk then
        (out.1, effs ++ [HEffect.addSession user.owner user.name app.name])
      else (errResp "AddSession error", effs ++ [HEffect.addSession user.owner user.name app.name])
    else (out.1, effs)

/-- Calls the provider branch of Login issues against externals. -/
inductive LEffect where
  | getToken
  | getUserInfo
  | parseSaml
  | setUserOAuthProperties
  | linkUserAccount (providerType externalId : String)
  | addUser (name : String)
  | addUserIdProvider
  | updateUserIdProvider
  | addRolesToUser
  | handleLoggedInE (e : HEffect)
  deriving Repr, DecidableEq

/-- State mismatch message of the OAuth branch (auth.go line 646). -/
def stateMismatchMsg (expected got : String) : String :=
  "State expected: " ++ expected ++ ", but got: " ++ got

/-- Conflict message of the link branch (auth.go line 951), naming the
provider-side account and the local account it is linked to. -/
def alreadyLinkedMsg (ptype uname dname oname odname : String) : String :=
  "The account for provider: " ++ ptype ++ " and username: " ++ uname ++ " (" ++ dname
    ++ ") is already linked to another account: " ++ oname ++ " (" ++ odname ++ ")"

/-- Environment of the provider branch of Login: outcomes of every
external call, the configured authState value and the session user. -/
structure LEnv where
  getAppByClientId : Except Unit (Option Application)
  getAppByName : Except Unit (Option Application)
  getOrganization : Except Unit Organization
  getProvider : Except Unit Provider
  providerVisible : Bool
  parseSaml : Except Unit UserInfo
  idProviderSupported : Bool
  setHttpClientOk : Bool
  authStateCfg : String
  getToken : Except Unit OToken
  getUserInfo : Except Unit UserInfo
  claimsDecodeOk : Bool
  getUserByProvider : Except Unit (Option User)
  getUserByEmail : Except Unit (Option User)
  getUserByPhone : Except Unit (Option User)
  canSignUp : Bool
  getUserByName : Except Unit (Option User)
  uuidFrag : String
  userCount : Except Unit Nat
  initScore : Except Unit Int
  generatedId : String
  addUser : Except Unit Bool
  setOAuthProps : Except Unit Bool
  linkUserAccount : Except Unit Bool
  addUserIdProviderOk : Bool
  updateUserIdProviderOk : Bool
  roleMapper : Except Unit (List String)
  addRolesOk : Bool
  henv : HEnv
  req : ReqParams
  sessionUsername : String
  getLinkedUser : Except Unit (Option User)
  getUser : Except Unit User

/-- Tail of the signup path once a user record is selected or created
(auth.go lines 872-929): property sync, account link, identity-link
insertion, optional provider role mapping, then HandleLoggedIn. -/
def signupTail (env : LEnv) (application : Application) (provider : Provider)
    (userInfo : UserInfo) (form : AuthForm) (user : User) (tr : List LEffect) :
    Resp × List LEffect :=
  let afterProps : List LEffect → Resp × List LEffect := fun tr =>
    let tr := tr ++ [LEffect.linkUserAccount provider.typ userInfo.id]
    match env.linkUserAccount with
    | Except.error _ => (errResp "internal server error", tr)
    | Except.ok _ =>
      let tr := tr ++ [LEffect.addUserIdProvider]
      if !env.addUserIdProviderOk then (errResp "internal server error", tr)
      else
        let roles : Except Unit (List LEffect) :=
          if provider.enableRoleMapping then
            match env.roleMapper with
            | Except.error _ => Except.error ()
            | Except.ok _ =>
              if env.addRolesOk then Except.ok (tr ++ [LEffect.addRolesToUser])
              else Except.error ()
          else Except.ok tr
        match roles with
        | Except.error _ => (errResp "internal server error",
            tr ++ if provider.enableRoleMapping then [LEffect.addRolesToUser] else [])
        | Except.ok tr =>
          let h := HandleLoggedIn env.henv application user form env.req
          (h.1, tr ++ h.2.map LEffect.handleLoggedInE)
  if provider.category != "SAML" then
    let tr := tr ++ [LEffect.setUserOAuthProperties]
    match env.setOAuthProps with
    | Except.error _ => (errResp "internal server error", tr)
    | Except.ok _ => afterProps tr
  else afterProps tr

/-- Creation path of the signup branch (auth.go lines 772-870): signup
permission checks, username-conflict suffixing, then AddUser and the
signup tail. -/
def signupCreate (env : LEnv) (application : Application) (provider : Provider)
    (userInfo : UserInfo) (form : AuthForm) (tr : List LEffect) :
    Resp × List LEffect :=
  if !application.enableInternalSignUp && !application.enableIdpSignUp then
    (errResp "The account does not exist and is not allowed to sign up as new account", tr)
  else if !env.canSignUp then
    (errResp "The account does not exist and is not allowed to sign up via this provider", tr)
  else
    match env.getUserByName with
    | Except.error _ => (errResp "internal server error", tr)
    | Except.ok tmpUser =>
      let username := match tmpUser with
        | some _ => userInfo.username ++ "_" ++ env.uuidFrag
        | none => userInfo.username
      match env.userCount with
      | Except.error _ => (errResp "internal server error", tr)
      | Except.ok _ =>
        match env.initScore with
        | Except.error _ => (errResp "Get init score failed", tr)
        | Except.ok score =>
          let userId0 := if provider.category != "SAML" then userInfo.id else ""
          let userId := if userId0 == "" then env.generatedId else userId0
          let user : User :=
            { (default : User) with
              owner := application.organization
              name := username
              id := userId
              typ := "normal-user"
              displayName := userInfo.displayName
              avatar := userInfo.avatarUrl
              email := userInfo.email
              phone := userInfo.phone
              score := score
              signupApplication := application.name }
          let tr := tr ++ [LEffect.addUser username]
          match env.addUser with
          | Except.error _ => (errResp "internal server error", tr)
          | Except.ok affected =>
            if !affected then
              (errResp "Failed to create user, user information is invalid", tr)
            else signupTail env application provider userInfo form user tr

/-- Signup branch of Login (auth.go lines 706-930). -/
def signupBranch (env : LEnv) (application : Application) (_organization : Organization)
    (provider : Provider) (userInfo : UserInfo) (form : AuthForm) (tr : List LEffect) :
    Resp × List LEffect :=
  let threeCat := provider.category == "OAuth" || provider.category == "Web3"
    || provider.category == "SAML"
  let user0E : Except Unit (Option User) :=
    if threeCat then env.getUserByProvider else Except.ok (some (default : User))
  match user0E with
  | Except.error _ => (errResp "internal server error", tr)
  | Except.ok user0 =>
    let signIn : User → Resp × List LEffect := fun user =>
      if user.isForbidden then
        (errResp "The user is forbidden to sign in, please contact the administrator", tr)
      else
        let h := HandleLoggedIn env.henv application user form env.req
        let tr := tr ++ h.2.map LEffect.handleLoggedInE ++ [LEffect.updateUserIdProvider]
        if !env.updateUserIdProviderOk then (errResp "internal server error", tr)
        else (h.1, tr)
    let signUp : Option User → Resp × List LEffect := fun user0 =>
      let emailLookup : Except Unit (Option User) :=
        if application.enableLinkWithEmail then
          match (if userInfo.email != "" then env.getUserByEmail else Except.ok user0) with
          | Except.error _ => Except.error ()
          | Except.ok u1 =>
            if u1.isNone && userInfo.phone != "" then env.getUserByPhone else Except.ok u1
        else Except.ok user0
      match emailLookup with
      | Except.error _ => (errResp "internal server error", tr)
      | Except.ok user1 =>
        match user1 with
        | some u =>
          if u.isDeleted then
            signupCreate env application provider userInfo form tr
          else signupTail env application provider userInfo form u tr
        | none => signupCreate env application provider userInfo form tr
    match user0 with
    | some user =>
      if user.isDeleted then
        if threeCat then signUp (some user)
        else ({ status := "", msg := "", data := "", data2 := "" }, tr)
      else signIn user
    | none =>
      if threeCat then signUp none
      else ({ status := "", msg := "", data := "", data2 := "" }, tr)

/-- Link branch of Login (auth.go lines 931-985): requires an active
session, rejects when the external identity is linked to any stored
account, and otherwise links the session user. -/
def linkBranch (env : LEnv) (provider : Provider) (userInfo : UserInfo)
    (tr : List LEffect) : Resp × List LEffect :=
  if env.sessionUsername == "" then (errResp "Invalid username or password/code", tr)
  else
    match env.getLinkedUser with
    | Except.error _ => (errResp "internal server error", tr)
    | Except.ok (some oldUser) =>
      (errResp (alreadyLinkedMsg provider.typ userInfo.username userInfo.displayName
        oldUser.name oldUser.displayName), tr)
    | Except.ok none =>
      match env.getUser with
      | Except.error _ => (errResp "internal server error", tr)
      | Except.ok _user =>
        let tr := tr ++ [LEffect.setUserOAuthProperties]
        match env.setOAuthProps with
        | Except.error _ => (errResp "internal server error", tr)
        | Except.ok _ =>
          let tr := tr ++ [LEffect.linkUserAccount provider.typ userInfo.id]
          match env.linkUserAccount with
          | Except.error _ => (errResp "internal server error", tr)
          | Except.ok isLinked =>
            if isLinked then ({ status := "ok", msg := "", data := "true", data2 := "" }, tr)
            else
              ({ status := "error", msg := "Failed to link user account",
                 data := "false", data2 := "" }, tr)

/-- Application selection of the provider branch (auth.go lines
565-582): by client id when one is supplied, else by name. -/
def lookupApp (env : LEnv) (form : AuthForm) : Except Unit (Option Application) :=
  if form.clientId != "" then env.getAppByClientId else env.getAppByName

/-- Provider branch of Login (auth.go lines 564-985): application and
provider resolution, the per-category identity acquisition including
the state check and token exchange, then the signup or link branch. -/
def LoginProvider (env : LEnv) (form : AuthForm) : Resp × List LEffect :=
  match lookupApp env form with
  | Except.error _ => (errResp "internal server error", [])
  | Except.ok none => (errResp ("The application does not exist: " ++ form.application), [])
  | Except.ok (some application) =>
    let organization := match env.getOrganization with
      | Except.ok o => o
      | Except.error _ => (default : Organization)
    match env.getProvider with
    | Except.error _ => (errResp "internal server error", [])
    | Except.ok provider =>
      if !env.providerVisible then
        (errResp ("The provider is not enabled for the application: " ++ provider.name), [])
      else
        let acquire : (Resp × List LEffect) ⊕ (UserInfo × List LEffect) :=
          if provider.category == "SAML" then
            match env.parseSaml with
            | Except.error _ => Sum.inl (errResp "internal server error", [LEffect.parseSaml])
            | Except.ok ui => Sum.inr (ui, [LEffect.parseSaml])
          else if provider.category == "OAuth" || provider.category == "Web3" then
            if !env.idProviderSupported then
              Sum.inl (errResp ("The provider type is not supported: " ++ provider.typ), [])
            else if !env.setHttpClientOk then
              Sum.inl (errResp "internal server error", [])
            else if form.state != env.authStateCfg && form.state != application.name then
              Sum.inl (errResp (stateMismatchMsg env.authStateCfg form.state), [])
            else
              match env.getToken with
              | Except.error _ => Sum.inl (errResp "internal server error", [LEffect.getToken])
              | Except.ok token =>
                if !token.valid then
                  Sum.inl (errResp "Invalid token", [LEffect.getToken])
                else
                  match env.getUserInfo with
                  | Except.error _ => Sum.inl (errResp "Failed to login in",
                      [LEffect.getToken, LEffect.getUserInfo])
                  | Except.ok ui =>
                    if provider.category == "OAuth" && !env.claimsDecodeOk then
                      Sum.inl (errResp "Invalid token", [LEffect.getToken, LEffect.getUserInfo])
                    else Sum.inr (ui, [LEffect.getToken, LEffect.getUserInfo])
          else Sum.inr ((default : UserInfo), [])
        match acquire with
        | Sum.inl r => r
        | Sum.inr (userInfo, tr) =>
          if form.method == "signup" then
            signupBranch env application organization provider userInfo form tr
          else linkBranch env provider userInfo tr

/-- Session slots the MFA branch of Login reads and writes. -/
structure SessionSt where
  sessionUsername : String
  mfaUserSession : String
  changePasswordUserSession : String
  deriving Repr, DecidableEq

/-- Environment of the MFA branch of Login. -/
structure MEnv where
  getUser : Except Unit (Option User)
  mfaUtilValid : Bool
  verify : String → Bool
  recover : Except Unit Unit
  getApp : Except Unit (Option Application)
  henv : HEnv
  req : ReqParams

/-- MFA branch of Login (auth.go lines 986-1057), entered when the
MFA-pending session marker is non-empty: passcode or recovery-code
verification, then the application lookup, the forced-password-change
check, and completion through HandleLoggedIn with the marker cleared. -/
def LoginMfa (env : MEnv) (form : AuthForm) (st : SessionSt) : Resp × SessionSt :=
  match env.getUser with
  | Except.error _ => (errResp "internal server error", st)
  | Except.ok none => (errResp "expired user session", st)
  | Except.ok (some user) =>
    let proceed : Unit → Resp × SessionSt := fun _ =>
      match env.getApp with
      | Except.error _ => (errResp "internal server error", st)
      | Except.ok none => (errResp ("The application does not exist: " ++ form.application), st)
      | Except.ok (some application) =>
        if user.passwordChangeRequired then
          (okResp "NextChangePasswordForm",
            { st with changePasswordUserSession := userGetId user, mfaUserSession := "" })
        else
          ((HandleLoggedIn env.henv application user form env.req).1,
            { st with mfaUserSession := "" })
    if form.passcode != "" then
      if !env.mfaUtilValid then (errResp "Invalid multi-factor authentication type", st)
      else if !env.verify form.passcode then (errResp "OTP was wrong", st)
      else proceed ()
    else if form.recoveryCode != "" then
      match env.recover with
      | Except.error _ => (errResp "internal server error", st)
      | Except.ok _ => proceed ()
    else (errResp "missing passcode or recovery code", st)

/-- GetCaptchaStatus (auth.go lines 1217-1231): CAPTCHA is reported
enabled exactly when the user exists and its failed-sign-in counter has
reached the limit. -/
def GetCaptchaStatus (userLookup : Except Unit (Option User)) (limit : Nat) : Resp :=
  match userLookup with
  | Except.error _ => errResp "internal server error"
  | Except.ok u =>
    let captchaEnabled : Bool := match u with
      | some user => decide (limit ≤ user.signinWrongTimes)
      | none => false
    okResp (if captchaEnabled then "true" else "false")

/-- An environment in which every external call of SyncLdapUsers
succeeds (AddUser may still report not affected). -/
def SyncEnv.clean (env : SyncEnv) : Prop :=
  (∀ i, env.getExistOk i = true) ∧ (∀ i, ∃ s, env.buildName i = Except.ok s) ∧
  (∃ n, env.initScore = Except.ok n) ∧ (∀ i, env.addUser i ≠ AddResult.err) ∧
  (∀ i, env.addIdp i = true) ∧ (∀ i, env.getLdap2 i = true) ∧
  (∀ i, env.syncRolesOk i = true)

/-- Directory configuration fixture without role mapping. -/
def exLdapNoRM : Ldap :=
  { id := "l1", baseDn := "dc=example,dc=com", username := "cn=admin,ou=it",
    enableRoleMapping := false }

/-- Directory configuration fixture with role mapping enabled. -/
def exLdapRM : Ldap := { exLdapNoRM with enableRoleMapping := true }

def exOrg : Organization :=
  { name := "org", defaultApplication := "app", defaultAvatar := "" }

/-- Directory record fixture. -/
def exRec (uuidv uidv : String) : LdapUser :=
  { uidNumber := "1001", uid := uidv, cn := uidv, uuid := uuidv, displayName := "",
    email := "", mobile := "", address := "" }

/-- Sync environment fixture in which every external call succeeds. -/
def exEnvBase : SyncEnv :=
  { ldap := exLdapNoRM, org := exOrg, initScore := Except.ok 2000,
    getExistOk := fun _ => true, buildName := fun _ => Except.ok "bob",
    addUser := fun _ => AddResult.ok, addIdp := fun _ => true,
    getLdap2 := fun _ => true, syncRolesOk := fun _ => true }

def exEnvRM : SyncEnv := { exEnvBase with ldap := exLdapRM }

def exEnvAddErr : SyncEnv := { exEnvBase with addUser := fun _ => AddResult.err }

def exEnvNA : SyncEnv := { exEnvBase with addUser := fun _ => AddResult.notAffected }

/-- One stored user already linked to directory uuid u1. -/
def exDb1 : List User := [{ (default : User) with owner := "org", name := "bob", ldap := "u1" }]




/-- HandleLoggedIn environment fixture in which every external call
succeeds. -/
def exHEnvOk : HEnv :=
  { checkLoginPermission := Except.ok true, subscriptions := Except.ok [],
    pricing := Except.ok none, getOAuthCode := Except.ok { code := "c", message := "" },
    grantTypeValid := true,
    tokenByUser := { accessToken := "a", refreshToken := "r", valid := true },
    samlResponse := Except.ok (), casToken := Except.ok "st", addSessionOk := true }

/-- MFA-branch environment fixture: the stored passcode is 123456. -/
def exMEnv : MEnv :=
  { getUser := Except.ok (some { (default : User) with owner := "org", name := "amy" }),
    mfaUtilValid := true, verify := fun s => s == "123456",
    recover := Except.ok (), getApp := Except.ok (some (default : Application)),
    henv := exHEnvOk, req := (default : ReqParams) }

/-- Session-state fixture with a pending MFA marker. -/
def exStMfa : SessionSt :=
  { sessionUsername := "", mfaUserSession := "org/amy", changePasswordUserSession := "" }

def exProvGitHub : Provider :=
  { name := "github", typ := "GitHub", category := "OAuth", enableRoleMapping := false }

def exAppX : Application :=
  { name := "appx", organization := "org", tags := [], grantTypes := [],
    enableSigninSession := false, hasPromptPage := false, enableLinkWithEmail := false,
    enableInternalSignUp := true, enableIdpSignUp := true }

def exAlice : User :=
  { (default : User) with
    owner := "org"
    name := "alice"
    displayName := "Alice"
    id := "id-alice" }

def exUserInfoGH : UserInfo :=
  { id := "ext1", username := "alice-gh", displayName := "Alice GH", email := "",
    phone := "", countryCode := "", avatarUrl := "" }

/-- Provider-branch environment fixture: the caller has an active local
session as alice, and the GitHub identity ext1 is already linked to
that same alice account. -/
def exLEnvC7 : LEnv :=
  { getAppByClientId := Except.ok none, getAppByName := Except.ok (some exAppX),
    getOrganization := Except.ok exOrg, getProvider := Except.ok exProvGitHub,
    providerVisible := true, parseSaml := Except.ok (default : UserInfo),
    idProviderSupported := true, setHttpClientOk := true, authStateCfg := "casdoor",
    getToken := Except.ok { accessToken := "t", refreshToken := "", valid := true },
    getUserInfo := Except.ok exUserInfoGH, claimsDecodeOk := true,
    getUserByProvider := Except.ok none, getUserByEmail := Except.ok none,
    getUserByPhone := Except.ok none, canSignUp := true, getUserByName := Except.ok none,
    uuidFrag := "abcd", userCount := Except.ok 1, initScore := Except.ok 2000,
    generatedId := "gen1", addUser := Except.ok true, setOAuthProps := Except.ok true,
    linkUserAccount := Except.ok true, addUserIdProviderOk := true,
    updateUserIdProviderOk := true, roleMapper := Except.ok [], addRolesOk := true,
    henv := exHEnvOk, req := (default : ReqParams), sessionUsername := "org/alice",
    getLinkedUser := Except.ok (some exAlice), getUser := Except.ok exAlice }

/-- Same environment with the external identity not linked anywhere. -/
def exLEnvLinkFree : LEnv := { exLEnvC7 with getLinkedUser := Except.ok none }

def exFormC7 : AuthForm :=
  { (default : AuthForm) with
    provider := "github"
    method := "link"
    state := "casdoor"
    application := "appx" }

def exFormC6 : AuthForm := { exFormC7 with state := "wrong" }


theorem nodup_filter_beq_singleton {l : List String} {a : String}
    (hnd : l.Nodup) (ha : a ∈ l) : l.filter (fun x => x == a) = [a] := by
  induction l with
  | nil => cases ha
  | cons b t ih =>
    rw [List.nodup_cons] at hnd
    rcases List.mem_cons.mp ha with rfl | h
    · have ht : t.filter (fun x => x == a) = [] :=
        List.filter_eq_nil_iff.mpr (fun x hx => by
          simp only [beq_iff_eq]
          rintro rfl
          exact hnd.1 hx)
      simp [List.filter_cons, ht]
    · have hba : (b == a) = false := by
        simp only [beq_eq_false_iff_ne]
        rintro rfl
        exact hnd.1 h
      simp [List.filter_cons, hba, ih hnd.2 h]

theorem filter_beq_nil_of_not_mem {l : List String} {a : String} (ha : a ∉ l) :
    l.filter (fun x => x == a) = [] :=
  List.filter_eq_nil_iff.mpr (fun x hx => by
    simp only [beq_iff_eq]
    rintro rfl
    exact ha hx)

/-- C4: buildLdapUserName implements the directory-account collision
policy exactly: when the lookup finds a stored user (whose name equals
the raw uid or the uid_uidNumber composite), (a) a matching LDAP
back-reference reuses the stored name, (b) otherwise a name equal to
the raw uid yields exactly the composite, (c) otherwise the composite
plus the random 6-hex suffix; with no collision the raw uid is used,
falling back to the common-name when the uid is empty. -/
theorem buildLdapUserName_collision_policy (u : LdapUser) (found : Option User)
    (rand : String)
    (hfound : ∀ v, found = some v → v.name = u.uid ∨ v.name = u.uid ++ "_" ++ u.uidNumber) :
    (∀ v, found = some v → v.ldap = u.uuid →
      buildLdapUserName u (Except.ok found) rand = Except.ok v.name) ∧
    (∀ v, found = some v → v.ldap ≠ u.uuid → v.name = u.uid →
      buildLdapUserName u (Except.ok found) rand = Except.ok (u.uid ++ "_" ++ u.uidNumber)) ∧
    (∀ v, found = some v → v.ldap ≠ u.uuid → v.name ≠ u.uid →
      buildLdapUserName u (Except.ok found) rand =
        Except.ok (u.uid ++ "_" ++ u.uidNumber ++ "_" ++ rand)) ∧
    (found = none → u.uid ≠ "" →
      buildLdapUserName u (Except.ok found) rand = Except.ok u.uid) ∧
    (found = none → u.uid = "" →
      buildLdapUserName u (Except.ok found) rand = Except.ok u.cn) := by
  refine ⟨?_, ?_, ?_, ?_, ?_⟩
  · rintro v rfl hl
    simp [buildLdapUserName, hl]
  · rintro v rfl hl hn
    simp [buildLdapUserName, hl, hn]
  · rintro v rfl hl hn
    simp [buildLdapUserName, hl, hn]
  · rintro rfl hu
    simp [buildLdapUserName, hu]
  · rintro rfl hu
    simp [buildLdapUserName, hu]

theorem buildLdapUserName_collision_policy_witness :
    buildLdapUserName (exRec "uuid-1" "jdoe")
      (Except.ok (some { (default : User) with name := "jdoe", ldap := "uuid-2" }))
      "a1b2c3" = Except.ok "jdoe_1001" :=
  (buildLdapUserName_collision_policy (exRec "uuid-1" "jdoe")
    (some { (default : User) with name := "jdoe", ldap := "uuid-2" }) "a1b2c3"
    (fun v hv => by cases hv; exact Or.inl rfl)).2.1
    { (default : User) with name := "jdoe", ldap := "uuid-2" } rfl (by decide) rfl

/-- C9: GetCaptchaStatus reports CAPTCHA enabled exactly when the failed
sign-in counter has reached the limit: true for every counter at or
above the limit, false strictly below it, and false when the user does
not exist. -/
theorem GetCaptchaStatus_threshold (user : User) (limit : Nat) :
    (limit ≤ user.signinWrongTimes →
      GetCaptchaStatus (Except.ok (some user)) limit = okResp "true") ∧
    (user.signinWrongTimes < limit →
      GetCaptchaStatus (Except.ok (some user)) limit = okResp "false") ∧
    GetCaptchaStatus (Except.ok none) limit = okResp "false" := by
  refine ⟨fun h => ?_, fun h => ?_, ?_⟩
  · simp [GetCaptchaStatus, h]
  · simp [GetCaptchaStatus, Nat.not_le.mpr h]
  · simp [GetCaptchaStatus]

theorem GetCaptchaStatus_threshold_witness :
    GetCaptchaStatus (Except.ok (some { (default : User) with signinWrongTimes := 5 })) 5
      = okResp "true" ∧
    GetCaptchaStatus (Except.ok (some { (default : User) with signinWrongTimes := 4 })) 5
      = okResp "false" ∧
    GetCaptchaStatus (Except.ok none) 5 = okResp "false" :=
  ⟨(GetCaptchaStatus_threshold { (default : User) with signinWrongTimes := 5 } 5).1
      (by decide),
   (GetCaptchaStatus_threshold { (default : User) with signinWrongTimes := 4 } 5).2.1
      (by decide),
   (GetCaptchaStatus_threshold { (default : User) with signinWrongTimes := 4 } 5).2.2⟩

/-- C10: when every configured directory server is skipped by id, fails
to connect, or returns zero entries, SyncUserFromLdap returns a nil
user together with a nil error, so that outcome is indistinguishable
from a pure not-found by the return values alone. -/
theorem SyncUserFromLdap_all_missing (ldaps : List LdapServerSim) (ldapId : String)
    (env : SyncFromEnv)
    (h : ∀ s ∈ ldaps, (0 < ldapId.length && s.id != ldapId) = true ∨
      s.outcome = LdapServerOutcome.connFail ∨
      s.outcome = LdapServerOutcome.entries []) :
    SyncUserFromLdap (Except.ok ldaps) ldapId env = (none, false) := by
  have key : ∀ l : List LdapServerSim, (∀ s ∈ l,
      (0 < ldapId.length && s.id != ldapId) = true ∨
      s.outcome = LdapServerOutcome.connFail ∨
      s.outcome = LdapServerOutcome.entries []) →
      syncFromLoop ldapId env l = (none, false) := by
    intro l
    induction l with
    | nil => intro _; simp [syncFromLoop]
    | cons s rest ih =>
      intro hall
      have hrest : ∀ x ∈ rest, (0 < ldapId.length && x.id != ldapId) = true ∨
          x.outcome = LdapServerOutcome.connFail ∨
          x.outcome = LdapServerOutcome.entries [] :=
        fun x hx => hall x (List.mem_cons_of_mem _ hx)
      rcases hall s (List.mem_cons_self _ _) with hskip | hconn | hempty
      · rw [syncFromLoop]
        rw [if_pos hskip]
        exact ih hrest
      · by_cases hc : (0 < ldapId.length && s.id != ldapId) = true
        · rw [syncFromLoop]
          rw [if_pos hc]
          exact ih hrest
        · rw [syncFromLoop]
          rw [if_neg hc, hconn]
          exact ih hrest
      · by_cases hc : (0 < ldapId.length && s.id != ldapId) = true
        · rw [syncFromLoop]
          rw [if_pos hc]
          exact ih hrest
        · rw [syncFromLoop]
          rw [if_neg hc, hempty]
          simpa using ih hrest
  simpa [SyncUserFromLdap] using key ldaps h

theorem SyncUserFromLdap_all_missing_witness :
    SyncUserFromLdap (Except.ok
      [{ id := "a", outcome := LdapServerOutcome.connFail },
       { id := "b", outcome := LdapServerOutcome.entries [] }]) ""
      { checkPasswordOk := true, syncErr := false } = (none, false) :=
  SyncUserFromLdap_all_missing _ _ _ (by decide)

theorem syncStep_found_eq (env : SyncEnv) (owner ldapId affiliation tag : String)
    (uuids : List String) (i : Nat) (syncUser : LdapUser) (st : LoopSt) (nm : String)
    (hq : env.getExistOk i = true)
    (hb : env.buildName i = Except.ok nm)
    (hl : env.getLdap2 i = true)
    (hr : env.syncRolesOk i = true)
    (hfound : syncUser.uuid ∈ GetExistUuids owner uuids st.db) :
    syncStep env owner ldapId affiliation tag uuids i syncUser st = StepOut.next
      { db := st.db
        exist := st.exist ++ [syncUser]
        failed := st.failed
        trace := st.trace ++ [Effect.getExistUuids owner uuids] ++
          (if env.ldap.enableRoleMapping then
            [Effect.syncRoles syncUser.uuid nm owner] else []) } := by
  have hm : (GetExistUuids owner uuids st.db).filter (fun x => x == syncUser.uuid)
      = [syncUser.uuid] :=
    nodup_filter_beq_singleton (List.nodup_dedup _) hfound
  by_cases hrm : env.ldap.enableRoleMapping
  · simp [syncStep, hq, hb, hm, hl, hr, hrm]
  · simp [syncStep, hq, hb, hm, hl, hrm]

theorem syncStep_create_notAffected_eq (env : SyncEnv)
    (owner ldapId affiliation tag : String) (uuids : List String) (i : Nat)
    (syncUser : LdapUser) (st : LoopSt) (nm : String) (sc : Int)
    (hq : env.getExistOk i = true)
    (hb : env.buildName i = Except.ok nm)
    (hs : env.initScore = Except.ok sc)
    (hnot : syncUser.uuid ∉ GetExistUuids owner uuids st.db)
    (ha : env.addUser i = AddResult.notAffected) :
    syncStep env owner ldapId affiliation tag uuids i syncUser st = StepOut.next
      { db := st.db
        exist := st.exist
        failed := st.failed ++ [syncUser]
        trace := st.trace ++ [Effect.getExistUuids owner uuids,
          Effect.addUser owner nm syncUser.uuid] } := by
  have hm : (GetExistUuids owner uuids st.db).filter (fun x => x == syncUser.uuid) = [] :=
    filter_beq_nil_of_not_mem hnot
  simp [syncStep, hq, hb, hm, hs, ha]

theorem syncStep_create_ok_eq (env : SyncEnv)
    (owner ldapId affiliation tag : String) (uuids : List String) (i : Nat)
    (syncUser : LdapUser) (st : LoopSt) (nm : String) (sc : Int)
    (hq : env.getExistOk i = true)
    (hb : env.buildName i = Except.ok nm)
    (hs : env.initScore = Except.ok sc)
    (hnot : syncUser.uuid ∉ GetExistUuids owner uuids st.db)
    (ha : env.addUser i = AddResult.ok)
    (hidp : env.addIdp i = true)
    (hl : env.getLdap2 i = true)
    (hr : env.syncRolesOk i = true) :
    syncStep env owner ldapId affiliation tag uuids i syncUser st = StepOut.next
      { db := st.db ++ [mkLdapNewUser owner nm syncUser env.org affiliation tag sc]
        exist := st.exist
        failed := st.failed
        trace := st.trace ++ [Effect.getExistUuids owner uuids,
            Effect.addUser owner nm syncUser.uuid,
            Effect.addUserIdProvider env.org.name ldapId syncUser.uuid] ++
          (if env.ldap.enableRoleMapping then
            [Effect.syncRoles syncUser.uuid nm owner] else []) } := by
  have hm : (GetExistUuids owner uuids st.db).filter (fun x => x == syncUser.uuid) = [] :=
    filter_beq_nil_of_not_mem hnot
  by_cases hrm : env.ldap.enableRoleMapping
  · simp [syncStep, hq, hb, hm, hs, ha, hidp, hl, hr, hrm]
  · simp [syncStep, hq, hb, hm, hs, ha, hidp, hl, hrm]

/-- C1 (amended): a sync record whose uuid is already present among the
stored uuids of the owner is appended once to existUsers and triggers
no user creation and no identity-link insertion (the stored users are
unchanged and no AddUser or AddUserIdProvider call is issued for it);
however, when the directory configuration enables role mapping, a
SyncRoles call - a mutation of stored role state - is still issued for
that record. -/
theorem SyncLdapUsers_existing_record_frame (env : SyncEnv)
    (owner ldapId affiliation tag : String) (uuids : List String) (i : Nat)
    (syncUser : LdapUser) (st : LoopSt) (nm : String)
    (hq : env.getExistOk i = true)
    (hb : env.buildName i = Except.ok nm)
    (hl : env.getLdap2 i = true)
    (hr : env.syncRolesOk i = true)
    (hfound : syncUser.uuid ∈ GetExistUuids owner uuids st.db) :
    syncStep env owner ldapId affiliation tag uuids i syncUser st = StepOut.next
      { db := st.db
        exist := st.exist ++ [syncUser]
        failed := st.failed
        trace := st.trace ++ [Effect.getExistUuids owner uuids] ++
          (if env.ldap.enableRoleMapping then
            [Effect.syncRoles syncUser.uuid nm owner] else []) } :=
  syncStep_found_eq env owner ldapId affiliation tag uuids i syncUser st nm hq hb hl hr hfound

theorem SyncLdapUsers_existing_record_frame_witness :
    syncStep exEnvBase "org" "l1" "example.com" "it" ["u1"] 0 (exRec "u1" "bob")
      { db := exDb1, exist := [], failed := [], trace := [] } = StepOut.next
      { db := exDb1
        exist := [exRec "u1" "bob"]
        failed := []
        trace := [Effect.getExistUuids "org" ["u1"]] } := by
  have h := SyncLdapUsers_existing_record_frame exEnvBase "org" "l1" "example.com" "it"
    ["u1"] 0 (exRec "u1" "bob") { db := exDb1, exist := [], failed := [], trace := [] }
    "bob" rfl rfl rfl rfl (by decide)
  simpa using h

/-- C1 (counterexample to the claim as stated): with role mapping
enabled, a batch consisting of one record whose uuid u1 is already
linked to a stored user is classified existing, yet the run issues a
SyncRoles write for that record, so the record does not remain free of
stored-state mutation. -/
theorem SyncLdapUsers_existing_record_role_write_cex :
    (SyncLdapUsers exEnvRM "org" [exRec "u1" "bob"] "l1" exDb1).2.trace.filter Effect.isWrite
      = [Effect.syncRoles "u1" "bob" "org"] ∧
    (SyncLdapUsers exEnvRM "org" [exRec "u1" "bob"] "l1" exDb1).1
      = SyncResult.ok [exRec "u1" "bob"] [] := by
  exact ⟨rfl, rfl⟩

/-- C2 (amended): a record whose AddUser call reports not affected
without an error is appended to failedUsers and the loop continues with
the remaining records; an AddUser call that returns an error instead
aborts the whole batch with nil result lists. -/
theorem SyncLdapUsers_create_failure_split (env : SyncEnv)
    (owner ldapId affiliation tag : String) (uuids : List String) (i : Nat)
    (syncUser : LdapUser) (st : LoopSt) (nm : String) (sc : Int)
    (hq : env.getExistOk i = true)
    (hb : env.buildName i = Except.ok nm)
    (hs : env.initScore = Except.ok sc)
    (hnot : syncUser.uuid ∉ GetExistUuids owner uuids st.db) :
    (env.addUser i = AddResult.notAffected →
      syncStep env owner ldapId affiliation tag uuids i syncUser st = StepOut.next
        { db := st.db
          exist := st.exist
          failed := st.failed ++ [syncUser]
          trace := st.trace ++ [Effect.getExistUuids owner uuids,
            Effect.addUser owner nm syncUser.uuid] } ∧
      ∀ rest (st2 : LoopSt),
        syncStep env owner ldapId affiliation tag uuids i syncUser st = StepOut.next st2 →
        syncLoop env owner ldapId affiliation tag uuids (syncUser :: rest) i st =
          syncLoop env owner ldapId affiliation tag uuids rest (i + 1) st2) ∧
    (env.addUser i = AddResult.err →
      ∀ rest, syncLoop env owner ldapId affiliation tag uuids (syncUser :: rest) i st =
        (SyncResult.errNil,
          { db := st.db
            exist := st.exist
            failed := st.failed
            trace := st.trace ++ [Effect.getExistUuids owner uuids,
              Effect.addUser owner nm syncUser.uuid] })) := by
  have hm : (GetExistUuids owner uuids st.db).filter (fun x => x == syncUser.uuid) = [] :=
    filter_beq_nil_of_not_mem hnot
  constructor
  · intro ha
    refine ⟨syncStep_create_notAffected_eq env owner ldapId affiliation tag uuids i
      syncUser st nm sc hq hb hs hnot ha, ?_⟩
    intro rest st2 h
    simp [syncLoop, h]
  · intro ha rest
    have hstep : syncStep env owner ldapId affiliation tag uuids i syncUser st
        = StepOut.abortNil
          { db := st.db
            exist := st.exist
            failed := st.failed
            trace := st.trace ++ [Effect.getExistUuids owner uuids,
              Effect.addUser owner nm syncUser.uuid] } := by
      simp [syncStep, hq, hb, hm, hs, ha]
    rw [syncLoop]
    rw [hstep]

theorem SyncLdapUsers_create_failure_split_witness :
    syncStep exEnvNA "org" "l1" "example.com" "it" ["a1"] 0 (exRec "a1" "alice")
      { db := [], exist := [], failed := [], trace := [] } = StepOut.next
      { db := []
        exist := []
        failed := [exRec "a1" "alice"]
        trace := [Effect.getExistUuids "org" ["a1"],
          Effect.addUser "org" "bob" "a1"] } := by
  have h := (SyncLdapUsers_create_failure_split exEnvNA "org" "l1" "example.com" "it"
    ["a1"] 0 (exRec "a1" "alice") { db := [], exist := [], failed := [], trace := [] }
    "bob" 2000 rfl rfl rfl (by decide)).1 rfl
  simpa using h.1

/-- C2 (counterexample to the claim as stated): an AddUser error on the
first record of a two-record batch aborts the whole call with nil
result lists - the failing record is not collected into failedUsers and
the second record is never processed (only one exist-uuid lookup was
issued). -/
theorem SyncLdapUsers_addUser_error_aborts_cex :
    (SyncLdapUsers exEnvAddErr "org" [exRec "a1" "alice", exRec "b1" "bo"] "l1" []).1
      = SyncResult.errNil ∧
    (SyncLdapUsers exEnvAddErr "org" [exRec "a1" "alice", exRec "b1" "bo"] "l1" []).2.failed
      = [] ∧
    countQueries
      (SyncLdapUsers exEnvAddErr "org" [exRec "a1" "alice", exRec "b1" "bo"] "l1" []).2.trace
      = 1 := by
  exact ⟨rfl, rfl, rfl⟩

theorem syncStep_clean_next (env : SyncEnv) (owner ldapId affiliation tag : String)
    (uuids : List String) (i : Nat) (syncUser : LdapUser) (st : LoopSt)
    (hc : env.clean) :
    ∃ st2, syncStep env owner ldapId affiliation tag uuids i syncUser st = StepOut.next st2 ∧
      countQueries st2.trace = countQueries st.trace + 1 ∧
      ∀ o us, Effect.getExistUuids o us ∈ st2.trace →
        Effect.getExistUuids o us ∈ st.trace ∨ (o = owner ∧ us = uuids) := by
  obtain ⟨h1, h2, h3, h4, h5, h6, h7⟩ := hc
  obtain ⟨nm, hb⟩ := h2 i
  obtain ⟨sc, hs⟩ := h3
  by_cases hf : syncUser.uuid ∈ GetExistUuids owner uuids st.db
  · refine ⟨_, syncStep_found_eq env owner ldapId affiliation tag uuids i syncUser st nm
      (h1 i) hb (h6 i) (h7 i) hf, ?_, ?_⟩
    · by_cases hrm : env.ldap.enableRoleMapping <;>
        simp [countQueries, hrm, List.filter_append, Effect.isQuery]
    · intro o us hmem
      by_cases hrm : env.ldap.enableRoleMapping <;>
        simp only [hrm, if_true, if_false, List.mem_append, List.mem_singleton,
          List.not_mem_nil, or_false, Effect.getExistUuids.injEq, reduceCtorEq] at hmem <;>
        tauto
  · cases hA : env.addUser i with
    | err => exact absurd hA (h4 i)
    | notAffected =>
      refine ⟨_, syncStep_create_notAffected_eq env owner ldapId affiliation tag uuids i
        syncUser st nm sc (h1 i) hb hs hf hA, ?_, ?_⟩
      · simp [countQueries, List.filter_append, Effect.isQuery]
      · intro o us hmem
        simp only [List.mem_append, List.mem_cons, List.not_mem_nil, or_false,
          Effect.getExistUuids.injEq, reduceCtorEq] at hmem
        tauto
    | ok =>
      refine ⟨_, syncStep_create_ok_eq env owner ldapId affiliation tag uuids i
        syncUser st nm sc (h1 i) hb hs hf hA (h5 i) (h6 i) (h7 i), ?_, ?_⟩
      · by_cases hrm : env.ldap.enableRoleMapping <;>
          simp [countQueries, hrm, List.filter_append, Effect.isQuery]
      · intro o us hmem
        by_cases hrm : env.ldap.enableRoleMapping <;>
          simp only [hrm, if_true, if_false, List.mem_append, List.mem_cons,
            List.mem_singleton, List.not_mem_nil, or_false,
            Effect.getExistUuids.injEq, reduceCtorEq] at hmem <;>
          tauto

theorem syncLoop_clean_ok (env : SyncEnv) (owner ldapId affiliation tag : String)
    (uuids : List String) (hc : env.clean) :
    ∀ (batch : List LdapUser) (i : Nat) (st : LoopSt),
      ∃ e f st2,
        syncLoop env owner ldapId affiliation tag uuids batch i st
          = (SyncResult.ok e f, st2) ∧
        countQueries st2.trace = countQueries st.trace + batch.length ∧
        ∀ o us, Effect.getExistUuids o us ∈ st2.trace →
          Effect.getExistUuids o us ∈ st.trace ∨ (o = owner ∧ us = uuids) := by
  intro batch
  induction batch with
  | nil =>
    intro i st
    exact ⟨st.exist, st.failed, st, rfl, by simp, fun o us h => Or.inl h⟩
  | cons u rest ih =>
    intro i st
    obtain ⟨st2, hstep, hcount, hmem⟩ :=
      syncStep_clean_next env owner ldapId affiliation tag uuids i u st hc
    obtain ⟨e, f, st3, hloop, hcount2, hmem2⟩ := ih (i + 1) st2
    refine ⟨e, f, st3, ?_, ?_, ?_⟩
    · rw [syncLoop]
      rw [hstep]
      exact hloop
    · simp only [List.length_cons]
      omega
    · intro o us h
      rcases hmem2 o us h with h2 | h2
      · rcases hmem o us h2 with h3 | h3
        · exact Or.inl h3
        · exact Or.inr h3
      · exact Or.inr h2

/-- C3 (amended): in a run where every external call succeeds, the
exist-uuid lookup is a batched distinct query keyed against the full
candidate uuid set of the whole batch, but it is executed once per
incoming record - the number of GetExistUuids round trips equals the
batch length, not one. -/
theorem SyncLdapUsers_lookup_once_per_record (env : SyncEnv) (owner : String)
    (syncUsers : List LdapUser) (ldapId : String) (db : List User)
    (hc : env.clean) :
    countQueries (SyncLdapUsers env owner syncUsers ldapId db).2.trace
      = syncUsers.length ∧
    ∀ o us, Effect.getExistUuids o us ∈ (SyncLdapUsers env owner syncUsers ldapId db).2.trace →
      us = syncUsers.map (fun u => u.uuid) := by
  obtain ⟨e, f, st2, hloop, hcount, hmem⟩ := syncLoop_clean_ok env owner ldapId
    (deriveAffiliation env.ldap.baseDn) (deriveTag env.ldap.username)
    (syncUsers.map (fun u => u.uuid)) hc syncUsers 0
    { db := db, exist := [], failed := [], trace := [] }
  have hS : SyncLdapUsers env owner syncUsers ldapId db = (SyncResult.ok e f, st2) := by
    unfold SyncLdapUsers
    exact hloop
  rw [hS]
  constructor
  · simpa [countQueries] using hcount
  · intro o us h
    rcases hmem o us h with h2 | h2
    · simp at h2
    · exact h2.2

theorem SyncLdapUsers_lookup_once_per_record_witness :
    countQueries
      (SyncLdapUsers exEnvBase "org" [exRec "a1" "alice", exRec "b1" "bo"] "l1" []).2.trace
      = 2 := by
  have hc : exEnvBase.clean := by
    refine ⟨fun _ => rfl, fun _ => ⟨"bob", rfl⟩, ⟨2000, rfl⟩, ?_,
      fun _ => rfl, fun _ => rfl, fun _ => rfl⟩
    intro i h
    exact nomatch h
  exact (SyncLdapUsers_lookup_once_per_record exEnvBase "org"
    [exRec "a1" "alice", exRec "b1" "bo"] "l1" [] hc).1

/-- C3 (counterexample to the claim as stated): a clean two-record batch
issues two GetExistUuids round trips, not one single batched query for
the whole batch. -/
theorem SyncLdapUsers_two_lookups_cex :
    countQueries
      (SyncLdapUsers exEnvBase "org" [exRec "a1" "alice", exRec "b1" "bo"] "l1" []).2.trace
      = 2 ∧ (2 : Nat) ≠ 1 := by
  exact ⟨rfl, by decide⟩

/-- C5: for a code-type completion in HandleLoggedIn whose
code_challenge_method is neither S256 nor the literal null nor empty,
no authorization code is issued on any path (GetOAuthCode is never
called, the effect trace is empty), and once the user gates pass the
request is rejected with the challenge-method error response. -/
theorem HandleLoggedIn_pkce_reject (env : HEnv) (app : Application) (user : User)
    (form : AuthForm) (req : ReqParams)
    (hform : form.typ = "code")
    (h1 : req.challengeMethod ≠ "S256") (h2 : req.challengeMethod ≠ "null")
    (h3 : req.challengeMethod ≠ "") :
    (HandleLoggedIn env app user form req).2 = [] ∧
    HEffect.getOAuthCode ∉ (HandleLoggedIn env app user form req).2 ∧
    (user.typ ≠ "invited-user" → env.checkLoginPermission = Except.ok true →
      (user.isGlobalAdmin = true ∨ user.isAdmin = true ∨ app.tags = [] ∨
        user.tag ∈ app.tags) →
      user.typ ≠ "paid-user" →
      (HandleLoggedIn env app user form req).1 = errResp "Challenge method should be S256") := by
  have hbad : (req.challengeMethod != "S256" && req.challengeMethod != "null"
      && req.challengeMethod != "") = true := by
    simp [h1, h2, h3]
  have htrace : (HandleLoggedIn env app user form req).2 = [] := by
    by_cases hi : user.typ = "invited-user"
    · simp [HandleLoggedIn, hform, hbad, hi]
    · cases hcp : env.checkLoginPermission with
      | error e => simp [HandleLoggedIn, hform, hbad, hi, hcp]
      | ok allowed =>
        cases allowed with
        | false => simp [HandleLoggedIn, hform, hbad, hi, hcp]
        | true =>
          by_cases ht : ((user.isGlobalAdmin = false ∧ user.isAdmin = false) ∧
              ¬app.tags = []) ∧ user.tag ∉ app.tags
          · simp [HandleLoggedIn, hform, hbad, hi, hcp, ht]
          · by_cases hp : user.typ = "paid-user"
            · cases hsub : env.subscriptions with
              | error e => simp [HandleLoggedIn, hform, hbad, hi, hcp, ht, hp, hsub, errResp]
              | ok subs =>
                by_cases hac : "Active" ∈ subs
                · simp [HandleLoggedIn, hform, hbad, hi, hcp, ht, hp, hsub, hac, errResp]
                · by_cases hpe : "Pending" ∈ subs
                  · simp [HandleLoggedIn, hform, hbad, hi, hcp, ht, hp, hsub, hac, hpe,
                      errResp, okResp]
                  · cases hpr : env.pricing with
                    | error e =>
                      simp [HandleLoggedIn, hform, hbad, hi, hcp, ht, hp, hsub, hac, hpe,
                        hpr, errResp]
                    | ok o =>
                      cases o <;>
                        simp [HandleLoggedIn, hform, hbad, hi, hcp, ht, hp, hsub, hac, hpe,
                          hpr, errResp, okResp]
            · simp [HandleLoggedIn, hform, hbad, hi, hcp, ht, hp, errResp]
  refine ⟨htrace, by simp [htrace], ?_⟩
  intro hinv hperm htag hpaid
  have hinvb : (user.typ == "invited-user") = false := by simp [hinv]
  have hpaidb : (user.typ == "paid-user") = false := by simp [hpaid]
  rcases htag with h | h | h | h <;>
    simp [HandleLoggedIn, hform, hbad, hinvb, hperm, hpaidb, h, errResp]

theorem HandleLoggedIn_pkce_reject_witness :
    (HandleLoggedIn
      { checkLoginPermission := Except.ok true, subscriptions := Except.ok [],
        pricing := Except.ok none, getOAuthCode := Except.ok { code := "c", message := "" },
        grantTypeValid := true,
        tokenByUser := { accessToken := "a", refreshToken := "r", valid := true },
        samlResponse := Except.ok (), casToken := Except.ok "st", addSessionOk := true }
      (default : Application) { (default : User) with typ := "normal-user" }
      { (default : AuthForm) with typ := "code" }
      { challengeMethod := "plain", service := "" }).1
      = errResp "Challenge method should be S256" :=
  (HandleLoggedIn_pkce_reject
    { checkLoginPermission := Except.ok true, subscriptions := Except.ok [],
      pricing := Except.ok none, getOAuthCode := Except.ok { code := "c", message := "" },
      grantTypeValid := true,
      tokenByUser := { accessToken := "a", refreshToken := "r", valid := true },
      samlResponse := Except.ok (), casToken := Except.ok "st", addSessionOk := true }
    (default : Application) { (default : User) with typ := "normal-user" }
    { (default : AuthForm) with typ := "code" }
    { challengeMethod := "plain", service := "" }
    rfl (by decide) (by decide) (by decide)).2.2
    (by decide) rfl (Or.inr (Or.inr (Or.inl rfl))) (by decide)

/-- C8: in the MFA branch of Login, a wrong one-time passcode yields the
distinct message OTP was wrong (not the generic invalid-credentials
failure), leaves the whole session state - in particular the
MFA-pending marker - unchanged, and a subsequent attempt with a correct
passcode from that same state clears the marker and completes through
HandleLoggedIn. -/
theorem LoginMfa_wrong_otp_retry (env : MEnv) (form : AuthForm) (st : SessionSt)
    (user : User) (app : Application) (wrong right : String)
    (_hmarker : st.mfaUserSession ≠ "")
    (hget : env.getUser = Except.ok (some user))
    (hw : wrong ≠ "") (hr : right ≠ "")
    (hutil : env.mfaUtilValid = true)
    (hwv : env.verify wrong = false)
    (hrv : env.verify right = true)
    (happ : env.getApp = Except.ok (some app))
    (hpc : user.passwordChangeRequired = false) :
    LoginMfa env { form with passcode := wrong } st = (errResp "OTP was wrong", st) ∧
    (errResp "OTP was wrong").msg ≠ "Invalid username or password/code" ∧
    LoginMfa env { form with passcode := right } st =
      ((HandleLoggedIn env.henv app user { form with passcode := right } env.req).1,
        { st with mfaUserSession := "" }) := by
  refine ⟨?_, by simp [errResp], ?_⟩
  · simp [LoginMfa, hget, hw, hutil, hwv]
  · simp [LoginMfa, hget, hr, hutil, hrv, happ, hpc]

theorem LoginMfa_wrong_otp_retry_witness :
    LoginMfa exMEnv { (default : AuthForm) with typ := "login", passcode := "000000" }
      exStMfa = (errResp "OTP was wrong", exStMfa) :=
  (LoginMfa_wrong_otp_retry exMEnv { (default : AuthForm) with typ := "login" } exStMfa
    { (default : User) with owner := "org", name := "amy" }
    (default : Application) "000000" "123456"
    (by decide) rfl (by decide) (by decide) rfl rfl rfl rfl rfl).1

/-- C6: for an OAuth or Web3 provider login whose state parameter equals
neither the configured authState value nor the application name, the
authorization-code-for-token exchange is never attempted (no GetToken
call on any path), and once the provider is visible and supported and
the transport client is configured, the request is rejected with the
state-mismatch error. -/
theorem LoginProvider_state_mismatch (env : LEnv) (form : AuthForm)
    (app : Application) (prov : Provider)
    (happ : lookupApp env form = Except.ok (some app))
    (hprov : env.getProvider = Except.ok prov)
    (hcat : prov.category = "OAuth" ∨ prov.category = "Web3")
    (hs1 : form.state ≠ env.authStateCfg) (hs2 : form.state ≠ app.name) :
    LEffect.getToken ∉ (LoginProvider env form).2 ∧
    (env.providerVisible = true → env.idProviderSupported = true →
      env.setHttpClientOk = true →
      LoginProvider env form
        = (errResp (stateMismatchMsg env.authStateCfg form.state), [])) := by
  have hsb : (form.state != env.authStateCfg && form.state != app.name) = true := by
    simp [hs1, hs2]
  constructor
  · rcases hcat with hc | hc <;>
      by_cases hv : env.providerVisible = true <;>
      by_cases hsup : env.idProviderSupported = true <;>
      by_cases hhttp : env.setHttpClientOk = true <;>
      simp [LoginProvider, happ, hprov, hc, hv, hsup, hhttp, hsb]
  · intro hv hsup hhttp
    rcases hcat with hc | hc <;>
      simp [LoginProvider, happ, hprov, hc, hv, hsup, hhttp, hsb]

theorem LoginProvider_state_mismatch_witness :
    LoginProvider exLEnvC7 exFormC6
      = (errResp (stateMismatchMsg "casdoor" "wrong"), []) :=
  (LoginProvider_state_mismatch exLEnvC7 exFormC6 exAppX exProvGitHub rfl rfl
    (Or.inl rfl) (by decide) (by decide)).2 rfl rfl rfl

/-- C7 (amended): for a non-signup provider login with an active local
session, the attempt is rejected - before any linking - whenever the
external identity is already linked to any stored account, including
the session user itself, with the provider-side username and the linked
account name surfaced in the error detail; the session user is linked
exactly when no stored account is linked to the identity. -/
theorem LoginProvider_link_branch (env : LEnv) (form : AuthForm)
    (app : Application) (prov : Provider) (tok : OToken) (ui : UserInfo)
    (happ : lookupApp env form = Except.ok (some app))
    (hprov : env.getProvider = Except.ok prov)
    (hcat : prov.category = "OAuth")
    (hv : env.providerVisible = true)
    (hsup : env.idProviderSupported = true)
    (hhttp : env.setHttpClientOk = true)
    (hst : form.state = env.authStateCfg)
    (htok : env.getToken = Except.ok tok)
    (hval : tok.valid = true)
    (hui : env.getUserInfo = Except.ok ui)
    (hcd : env.claimsDecodeOk = true)
    (hm : form.method ≠ "signup")
    (hsess : env.sessionUsername ≠ "") :
    (∀ u, env.getLinkedUser = Except.ok (some u) →
      LoginProvider env form
        = (errResp (alreadyLinkedMsg prov.typ ui.username ui.displayName
            u.name u.displayName),
           [LEffect.getToken, LEffect.getUserInfo])) ∧
    (env.getLinkedUser = Except.ok none →
      ∀ cu, env.getUser = Except.ok cu →
      env.setOAuthProps = Except.ok true →
      env.linkUserAccount = Except.ok true →
      LoginProvider env form
        = ({ status := "ok", msg := "", data := "true", data2 := "" },
           [LEffect.getToken, LEffect.getUserInfo, LEffect.setUserOAuthProperties,
            LEffect.linkUserAccount prov.typ ui.id])) := by
  constructor
  · intro u hold
    simp [LoginProvider, linkBranch, happ, hprov, hcat, hv, hsup, hhttp, hst, htok,
      hval, hui, hcd, hm, hsess, hold]
  · intro hold cu hcu hprops hlink
    simp [LoginProvider, linkBranch, happ, hprov, hcat, hv, hsup, hhttp, hst, htok,
      hval, hui, hcd, hm, hsess, hold, hcu, hprops, hlink]

theorem LoginProvider_link_branch_witness :
    LoginProvider exLEnvLinkFree exFormC7
      = ({ status := "ok", msg := "", data := "true", data2 := "" },
         [LEffect.getToken, LEffect.getUserInfo, LEffect.setUserOAuthProperties,
          LEffect.linkUserAccount "GitHub" "ext1"]) :=
  (LoginProvider_link_branch exLEnvLinkFree exFormC7 exAppX exProvGitHub
    { accessToken := "t", refreshToken := "", valid := true } exUserInfoGH
    rfl rfl rfl rfl rfl rfl rfl rfl rfl rfl rfl (by decide) (by decide)).2
    rfl exAlice rfl rfl rfl

/-- C7 (counterexample to the claim as stated): the GitHub identity ext1
is linked to alice, who is also the session current user (the identity
is not linked to a different account), yet the non-signup login is
rejected with the already-linked error naming the session user own
account, and no LinkUserAccount call is issued - the trace holds only
the token exchange and the user-info fetch. -/
theorem LoginProvider_self_link_rejected_cex :
    LoginProvider exLEnvC7 exFormC7
      = (errResp (alreadyLinkedMsg "GitHub" "alice-gh" "Alice GH" "alice" "Alice"),
         [LEffect.getToken, LEffect.getUserInfo]) ∧
    exLEnvC7.getLinkedUser = Except.ok (some exAlice) ∧
    exLEnvC7.getUser = Except.ok exAlice ∧
    exLEnvC7.sessionUsername = "org/alice" := by
  exact ⟨rfl, rfl, rfl, rfl⟩

end Casgate
